import Mathlib

/-!
Shallow embedding of `src/fetcher/src/main.cpp` (APTwitchBot fetcher).

The program keeps one global `FetcherState` mutated by APClient notification
handlers, and serializes it to a JSON file both on demand (from some handlers)
and periodically from the main poll loop.  JSON values are modelled by an
inductive `Json` type; `nlohmann::json` objects are modelled as association
lists (the only operations the program uses are `contains`, lookup and
key assignment, none of which depend on key ordering).
-/

namespace Fetcher

/-- JSON value tree, mirroring the `nlohmann::json` values the program stores.
Numbers are modelled as `Int`: the program never does arithmetic on stored
JSON numbers, it only moves them around. -/
inductive Json where
  | null : Json
  | bool : Bool → Json
  | num : Int → Json
  | str : String → Json
  | arr : List Json → Json
  | obj : List (String × Json) → Json
deriving Repr

/-- Lookup of a key in an object's field list (first binding wins, as in
`std::map` where keys are unique). Models `j.find(k)` / `j.contains(k)`
followed by `j[k]` on an object. -/
def getKey : List (String × Json) → String → Option Json
  | [], _ => none
  | (k', v') :: rest, k => if k' = k then some v' else getKey rest k

/-- Key assignment on an object's field list: replaces the binding of `k`
if present, otherwise appends it.  Models `j[k] = v` on an object
(`std::map::operator[]` insert-or-assign semantics). -/
def setKey : List (String × Json) → String → Json → List (String × Json)
  | [], k, v => [(k, v)]
  | (k', v') :: rest, k, v =>
      if k' = k then (k, v) :: rest else (k', v') :: setKey rest k v

/-- `j.find(k)` / `j[k]` guarded by `j.contains(k)`: on a non-object,
`contains` returns false, so the lookup yields nothing. -/
def jGet : Json → String → Option Json
  | Json.obj fields, k => getKey fields k
  | _, _ => none

/-- `j.get<std::string>()`: succeeds exactly on strings (otherwise
`nlohmann` throws a type error). -/
def asString : Json → Option String
  | Json.str s => some s
  | _ => none

/-- `j.get<int>()`: succeeds exactly on numbers (otherwise `nlohmann`
throws a type error). -/
def asInt : Json → Option Int
  | Json.num n => some n
  | _ => none

/-- `APClient::Version` (major / minor / build ints). -/
structure Version where
  ma : Int
  mi : Int
  build : Int
deriving Repr

/-- `version_to_string`: `to_string(ma) + "." + to_string(mi) + "." + to_string(build)`. -/
def version_to_string (v : Version) : String :=
  toString v.ma ++ "." ++ toString v.mi ++ "." ++ toString v.build

/-- `APClient::NetworkItem` as consumed by the items-received handler. -/
structure NetworkItem where
  index : Int
  item : Int
  location : Int
  player : Int
  flags : Nat
deriving Repr

/-- `FetcherState::ItemEvent`. -/
structure ItemEvent where
  index : Int
  item : Int
  location : Int
  player : Int
  flags : Nat
  timestamp : Int
deriving Repr, DecidableEq

/-- The global `FetcherState`.  `data_storage` starts as `json::object()` and
is only ever written through object key assignment, so it is modelled
directly as an object field list. -/
structure FetcherState where
  room_name : String
  seed : String
  server_version : String
  generator_version : String
  hint_points : Int
  hint_cost_percent : Int
  hint_cost_points : Int
  slot_name : String
  game : String
  slot_id : Int
  team_id : Int
  player_number : Int
  team_number : Int
  checked_locations : Finset Int
  items : List ItemEvent
  data_storage : List (String × Json)

/-- The in-struct initializers of `FetcherState` (`g_state` at process start). -/
def initState : FetcherState :=
  { room_name := "", seed := "", server_version := "", generator_version := ""
    hint_points := 0, hint_cost_percent := 0, hint_cost_points := 0
    slot_name := "", game := "", slot_id := -1, team_id := -1
    player_number := -1, team_number := -1
    checked_locations := ∅, items := [], data_storage := [] }

/-- The `set_room_info_handler` lambda's state mutation: assigns seed, the two
stringified versions, hint_points and hint_cost_percent from the client's
accessors.  (It writes nothing else: `room_name` is noted in a comment as not
directly exposed, and `hint_cost_points` is never assigned.) -/
def room_info_handler (s : FetcherState) (seed : String) (sv gv : Version)
    (hintPoints hintCostPercent : Int) : FetcherState :=
  { s with
    seed := seed
    server_version := version_to_string sv
    generator_version := version_to_string gv
    hint_points := hintPoints
    hint_cost_percent := hintCostPercent }

/-- The `set_slot_connected_handler` lambda's state mutation.  `slotName`,
`playerNumber`, `teamNumber` come from client accessors; `slotData` is the raw
payload; `cfgGame` is the configured game.  A `none` result models a
`nlohmann` type-error thrown by `get<...>` on a wrongly-typed payload field
(which would propagate out of `poll()` and terminate the process). -/
def slot_connected_handler (s : FetcherState) (slotName : String)
    (playerNumber teamNumber : Int) (slotData : Json) (cfgGame : String) :
    Option FetcherState :=
  match (match jGet slotData "game" with
         | some v => asString v
         | none => some cfgGame) with
  | none => none
  | some gameVal =>
      match (match jGet slotData "slot" with
             | some v => asInt v
             | none => some s.slot_id) with
      | none => none
      | some slotId =>
          match (match jGet slotData "team" with
                 | some v => asInt v
                 | none => some s.team_id) with
          | none => none
          | some teamId =>
              some { s with
                     slot_name := slotName
                     player_number := playerNumber
                     team_number := teamNumber
                     game := gameVal
                     slot_id := slotId
                     team_id := teamId
                     data_storage := setKey s.data_storage "slot_data" slotData }

/-- The `set_data_package_changed_handler` lambda's state mutation:
`g_state.data_storage["data_package"] = dp`. -/
def data_package_changed_handler (s : FetcherState) (dp : Json) : FetcherState :=
  { s with data_storage := setKey s.data_storage "data_package" dp }

/-- The `set_location_checked_handler` lambda: inserts every delivered id into
`checked_locations`, and logs `"+"` followed by `locations.size()` — the
second component is that logged count, the number of ids in the delivered
list. -/
def location_checked_handler (s : FetcherState) (ids : List Int) :
    FetcherState × Nat :=
  ({ s with checked_locations := ids.foldl (fun acc i => insert i acc) s.checked_locations },
   ids.length)

/-- `Modelled from the spec:` the count the spec attributes to
`record_checked_locations(ids)` — "count of ids newly added", i.e. of ids not
already present in the set before the call.  Stated from the spec's words for
comparison with the handler's logged count. -/
def newly_added_count (checked : Finset Int) (ids : List Int) : Nat :=
  (ids.toFinset \ checked).card

/-- One `ItemEvent` built from a `NetworkItem` in the items-received loop
body, stamped with the batch's single `now`. -/
def mkItemEvent (it : NetworkItem) (now : Int) : ItemEvent :=
  ⟨it.index, it.item, it.location, it.player, it.flags, now⟩

/-- The `set_items_received_handler` lambda's state mutation: takes one
timestamp `now` for the whole batch, then pushes one `ItemEvent` per delivered
item, in delivery order. -/
def items_received_handler (s : FetcherState) (batch : List NetworkItem)
    (now : Int) : FetcherState :=
  { s with items := batch.foldl (fun acc it => acc ++ [mkItemEvent it now]) s.items }

/-- One iteration of the retrieved-values loop body:
`g_state.data_storage["retrieved"][key] = value`.  `operator[]` on a missing
or null `"retrieved"` entry materializes an empty object first. -/
def setRetrievedOne (ds : List (String × Json)) (key : String) (value : Json) :
    List (String × Json) :=
  let fields :=
    match getKey ds "retrieved" with
    | some (Json.obj fs) => fs
    | _ => []
  setKey ds "retrieved" (Json.obj (setKey fields key value))

/-- The `set_retrieved_handler` lambda's state mutation: per-key overwrite
into `data_storage["retrieved"]`, iterating the delivered map. -/
def retrieved_handler (s : FetcherState) (kvs : List (String × Json)) : FetcherState :=
  { s with data_storage := kvs.foldl (fun ds kv => setRetrievedOne ds kv.1 kv.2) s.data_storage }

/-- The location-count block of `save_state_to_file`: `total_locations` starts
at 0 and is set to `data_storage["data_package"]["games"][game]["locations"].size()`
only when every step of that chain is present and the final value is an
object. -/
def total_locations (data_storage : List (String × Json)) (game : String) : Nat :=
  match getKey data_storage "data_package" with
  | some dp =>
      match jGet dp "games" with
      | some games =>
          match jGet games game with
          | some gameObj =>
              match jGet gameObj "locations" with
              | some (Json.obj fields) => fields.length
              | _ => 0
          | none => 0
      | none => 0
  | none => 0

/-- The `room` object built by `save_state_to_file`. -/
def room_json (s : FetcherState) : Json :=
  Json.obj
    [("room_name", Json.str s.room_name),
     ("seed", Json.str s.seed),
     ("server_version", Json.str s.server_version),
     ("generator_version", Json.str s.generator_version),
     ("hint_points", Json.num s.hint_points),
     ("hint_cost_percent", Json.num s.hint_cost_percent),
     ("hint_cost_points", Json.num s.hint_cost_points),
     ("location_count", Json.num (total_locations s.data_storage s.game))]

/-- The `me` object built by `save_state_to_file`. -/
def me_json (s : FetcherState) : Json :=
  Json.obj
    [("slot_name", Json.str s.slot_name),
     ("game", Json.str s.game),
     ("slot_id", Json.num s.slot_id),
     ("team_id", Json.num s.team_id),
     ("player_number", Json.num s.player_number),
     ("team_number", Json.num s.team_number)]

/-- One serialized item entry of the `items` array. -/
def item_json (it : ItemEvent) : Json :=
  Json.obj
    [("index", Json.num it.index),
     ("item", Json.num it.item),
     ("location", Json.num it.location),
     ("player", Json.num it.player),
     ("flags", Json.num (Int.ofNat it.flags)),
     ("time", Json.num it.timestamp)]

/-- The full snapshot document `out` assembled by `save_state_to_file`:
room, me, checked_locations (ascending `std::set` iteration order), items in
log order, the data_storage object verbatim, and — when the config has one —
a verbatim copy of its `archipelago` section. -/
def snapshot_json (cfg : Json) (s : FetcherState) : Json :=
  Json.obj
    ([("room", room_json s),
      ("me", me_json s),
      ("checked_locations",
        Json.arr ((s.checked_locations.sort (· ≤ ·)).map Json.num)),
      ("items", Json.arr (s.items.map item_json)),
      ("data_storage", Json.obj s.data_storage)] ++
     (match jGet cfg "archipelago" with
      | some a => [("archipelago", a)]
      | none => []))

/-- `save_state_to_file` as a pure description of the write it performs:
`some (path, document)` when it writes, `none` when it returns without
writing.  It returns without writing when the config has no
`paths.state_file` entry (the guard at the top of the function), and also
when that entry is not a string (`get<std::string>` throws; the exception is
caught, logged and swallowed).  The function reads the state under the lock
and never mutates it. -/
def save_state_to_file (cfg : Json) (s : FetcherState) : Option (String × Json) :=
  match jGet cfg "paths" with
  | none => none
  | some paths =>
      match jGet paths "state_file" with
      | none => none
      | some v =>
          match asString v with
          | none => none
          | some path => some (path, snapshot_json cfg s)

/-- One flush check of the main poll loop, at clock reading `now` with timer
base `last_flush`: if at least `flush_interval` has elapsed it flushes
(`save_state_to_file`) and resets the base to `now` (the reading taken before
the flush), otherwise it leaves the base alone.  Returns the new timer base
and whether a flush was performed. -/
def poll_iteration (flush_interval last_flush now : Nat) : Nat × Bool :=
  if flush_interval ≤ now - last_flush then (now, true) else (last_flush, false)

/-- One notification delivered by `client.poll()`, with the values the handler
reads from the client's accessors bundled in. -/
inductive Event where
  | roomInfo (seed : String) (sv gv : Version) (hintPoints hintCostPercent : Int)
  | slotConnected (slotName : String) (playerNumber teamNumber : Int) (slotData : Json)
  | dataPackageChanged (dp : Json)
  | locationChecked (ids : List Int)
  | itemsReceived (batch : List NetworkItem) (now : Int)
  | retrieved (kvs : List (String × Json))

/-- Dispatch of one notification to its handler's state mutation.  `none`
models a handler throwing (only the slot-connected handler can, on a
wrongly-typed payload field), which terminates the process. -/
def step (cfgGame : String) (s : FetcherState) : Event → Option FetcherState
  | Event.roomInfo seed sv gv hp hcp => some (room_info_handler s seed sv gv hp hcp)
  | Event.slotConnected n p t d => slot_connected_handler s n p t d cfgGame
  | Event.dataPackageChanged dp => some (data_package_changed_handler s dp)
  | Event.locationChecked ids => some (location_checked_handler s ids).1
  | Event.itemsReceived batch now => some (items_received_handler s batch now)
  | Event.retrieved kvs => some (retrieved_handler s kvs)

/-- Processing a sequence of notifications in delivery order, stopping if a
handler throws. -/
def run (cfgGame : String) (s : FetcherState) : List Event → Option FetcherState
  | [] => some s
  | e :: es =>
      match step cfgGame s e with
      | none => none
      | some s' => run cfgGame s' es

/-! ### Helper lemmas about the embedded operations -/

/-- Folding `insert` over a list of ids is union with the list's elements. -/
theorem foldl_insert_eq_union (ids : List Int) (s : Finset Int) :
    ids.foldl (fun acc i => insert i acc) s = s ∪ ids.toFinset := by
  induction ids generalizing s with
  | nil => simp
  | cons i rest ih =>
      simp only [List.foldl_cons, ih, List.toFinset_cons]
      ext a
      simp only [Finset.mem_union, Finset.mem_insert]
      tauto

/-- Folding "push one mapped element" over a list appends the mapped list. -/
theorem foldl_push_eq_append {α β : Type} (f : α → β) (l : List α) (acc0 : List β) :
    l.foldl (fun acc x => acc ++ [f x]) acc0 = acc0 ++ l.map f := by
  induction l generalizing acc0 with
  | nil => simp
  | cons x rest ih => simp [ih]

/-- Looking up the key just assigned yields the assigned value. -/
theorem getKey_setKey_self (l : List (String × Json)) (k : String) (v : Json) :
    getKey (setKey l k v) k = some v := by
  induction l with
  | nil => simp [setKey, getKey]
  | cons p rest ih =>
      obtain ⟨a, b⟩ := p
      by_cases ha : a = k
      · simp [setKey, ha, getKey]
      · simp [setKey, ha, getKey, ih]

/-- Assigning one key leaves the lookup of every other key unchanged. -/
theorem getKey_setKey_ne (l : List (String × Json)) (k k' : String) (v : Json)
    (h : k' ≠ k) : getKey (setKey l k v) k' = getKey l k' := by
  induction l with
  | nil => simp [setKey, getKey, Ne.symm h]
  | cons p rest ih =>
      obtain ⟨a, b⟩ := p
      by_cases ha : a = k
      · simp [setKey, getKey, ha, Ne.symm h]
      · simp [setKey, getKey, ha, ih]

/-- Assigning the same key twice is the same as assigning it once with the
second value. -/
theorem setKey_setKey_self (l : List (String × Json)) (k : String) (v w : Json) :
    setKey (setKey l k v) k w = setKey l k w := by
  induction l with
  | nil => simp [setKey]
  | cons p rest ih =>
      obtain ⟨a, b⟩ := p
      by_cases ha : a = k
      · simp [setKey, ha]
      · simp [setKey, ha, ih]

/-! ### Claim theorems -/

/-- A state carrying values from before a room-info notification, used to
show that some `RoomMetadata` fields survive the notification. -/
def c1_prior_state : FetcherState :=
  { initState with room_name := "previous room", hint_cost_points := 7 }

/-- Claim C1, counterexample: the room-info handler does not overwrite every
`RoomMetadata` field.  Starting from a state whose `room_name` is
"previous room" and whose `hint_cost_points` is 7, handling a room-info
notification leaves both values in place: two fields retain values from the
prior state. -/
theorem c1_counterexample :
    (room_info_handler c1_prior_state "abc123" ⟨0, 5, 1⟩ ⟨0, 5, 1⟩ 10 20).room_name
        = "previous room" ∧
    (room_info_handler c1_prior_state "abc123" ⟨0, 5, 1⟩ ⟨0, 5, 1⟩ 10 20).hint_cost_points
        = 7 :=
  ⟨rfl, rfl⟩

/-- Claim C1, amended: handling a room-info notification overwrites `seed`,
`server_version`, `generator_version`, `hint_points` and `hint_cost_percent`
from the notification's values, while `room_name` and `hint_cost_points` are
not written and keep whatever value the prior state had. -/
theorem c1_room_info_overwrite (s : FetcherState) (seed : String)
    (sv gv : Version) (hp hcp : Int) :
    (room_info_handler s seed sv gv hp hcp).seed = seed ∧
    (room_info_handler s seed sv gv hp hcp).server_version = version_to_string sv ∧
    (room_info_handler s seed sv gv hp hcp).generator_version = version_to_string gv ∧
    (room_info_handler s seed sv gv hp hcp).hint_points = hp ∧
    (room_info_handler s seed sv gv hp hcp).hint_cost_percent = hcp ∧
    (room_info_handler s seed sv gv hp hcp).room_name = s.room_name ∧
    (room_info_handler s seed sv gv hp hcp).hint_cost_points = s.hint_cost_points :=
  ⟨rfl, rfl, rfl, rfl, rfl, rfl, rfl⟩

/-- A state that has already checked location 5, used to compare the
location-checked handler's logged count with the newly-added count. -/
def c3_prior_state : FetcherState :=
  { initState with checked_locations := {5} }

/-- Claim C3, counterexample: delivering `[5]` to a state whose checked set
is already `{5}` makes the handler report the count 1 (the delivered list's
length), while the number of ids newly added is 0 — the reported count is not
the count of newly added ids. -/
theorem c3_counterexample :
    (location_checked_handler c3_prior_state [5]).2 = 1 ∧
    newly_added_count c3_prior_state.checked_locations [5] = 0 ∧
    (location_checked_handler c3_prior_state [5]).2 ≠
      newly_added_count c3_prior_state.checked_locations [5] := by
  refine ⟨rfl, ?_, ?_⟩ <;>
    simp [newly_added_count, c3_prior_state, initState, location_checked_handler]

/-- Claim C3, amended: for every list of location ids, the location-checked
handler unions the ids into `checked_locations`, and the count it reports is
the length of the delivered list (duplicates and already-present ids
included), not the count of ids newly added. -/
theorem c3_record_checked (s : FetcherState) (ids : List Int) :
    (location_checked_handler s ids).1.checked_locations
        = s.checked_locations ∪ ids.toFinset ∧
    (location_checked_handler s ids).2 = ids.length :=
  ⟨foldl_insert_eq_union ids s.checked_locations, rfl⟩

/-- Claim C5: for all id lists A and B and any starting state, recording A
then B yields the same `checked_locations` set as recording B, then A, then A
again — the recording operation is a commutative, idempotent union that
collapses duplicates. -/
theorem c5_commutative_idempotent (s : FetcherState) (A B : List Int) :
    (location_checked_handler (location_checked_handler s A).1 B).1.checked_locations
  = (location_checked_handler
      (location_checked_handler (location_checked_handler s B).1 A).1 A).1.checked_locations := by
  simp only [location_checked_handler, foldl_insert_eq_union]
  ext a
  simp only [Finset.mem_union]
  tauto

/-- Claim C6: applying data-package X and then data-package Y leaves the
stored data package exactly Y, and in fact the whole resulting state is the
one obtained by applying Y alone — no residue from X. -/
theorem c6_data_package_replace (s : FetcherState) (X Y : Json) :
    getKey (data_package_changed_handler
        (data_package_changed_handler s X) Y).data_storage "data_package" = some Y ∧
    data_package_changed_handler (data_package_changed_handler s X) Y
        = data_package_changed_handler s Y := by
  constructor
  · exact getKey_setKey_self _ _ _
  · simp [data_package_changed_handler, setKey_setKey_self]

/-- Claim C7: a batch of received items is appended to the item log in
delivery order, every appended entry carrying the single shared receipt
timestamp, with one entry per delivered item (no deduplication by sequence
index — the log always grows by exactly the batch's length). -/
theorem c7_items_batch (s : FetcherState) (batch : List NetworkItem) (now : Int) :
    (items_received_handler s batch now).items
        = s.items ++ batch.map (fun it => mkItemEvent it now) ∧
    (items_received_handler s batch now).items.length
        = s.items.length + batch.length ∧
    ∀ e ∈ batch.map (fun it => mkItemEvent it now), e.timestamp = now := by
  have h : (items_received_handler s batch now).items
      = s.items ++ batch.map (fun it => mkItemEvent it now) :=
    foldl_push_eq_append _ _ _
  refine ⟨h, ?_, ?_⟩
  · rw [h]; simp
  · intro e he
    simp only [List.mem_map] at he
    obtain ⟨it, _, rfl⟩ := he
    rfl

/-- The two-item batch of the spec's Scenario B. -/
def c7_batch : List NetworkItem :=
  [⟨1, 100, 5, 2, 0⟩, ⟨2, 101, 6, 2, 1⟩]

/-- Claim C7, witness: delivering the two-item Scenario-B batch at time 1000
to the initial state produces exactly two log entries, in delivery order,
both stamped 1000. -/
theorem c7_witness :
    (items_received_handler initState c7_batch 1000).items
        = [mkItemEvent ⟨1, 100, 5, 2, 0⟩ 1000, mkItemEvent ⟨2, 101, 6, 2, 1⟩ 1000] ∧
    (items_received_handler initState c7_batch 1000).items.length = 0 + 2 ∧
    (mkItemEvent ⟨1, 100, 5, 2, 0⟩ 1000).timestamp = 1000 := by
  have h := c7_items_batch initState c7_batch 1000
  refine ⟨?_, ?_, ?_⟩
  · rw [h.1]; rfl
  · rw [h.2.1]; rfl
  · exact h.2.2 _ (by simp [c7_batch])

/-- Claim C2: the poll loop's flush check, whose timer base is the clock
reading taken just before the previous flush started, (a) fires at any check
occurring at least `flush_interval` after the previous flush *ended* (a flush
started at `t0` and lasting `d` ends at `t0 + d`, and `t0 ≤ t0 + d`), so at
least one flush happens per interval of elapsed time measured from the end of
the previous flush; and (b) after a flush resets the base to `now`, no
further flush fires before a full interval has elapsed, so a slow flush
cannot cause a catch-up burst. -/
theorem c2_periodic_flush (flush_interval t0 d now t' : Nat)
    (hend : t0 + d + flush_interval ≤ now) (hmono : now ≤ t') :
    (poll_iteration flush_interval t0 now).2 = true ∧
    ((poll_iteration flush_interval now t').2 = true → now + flush_interval ≤ t') := by
  constructor
  · have hc : flush_interval ≤ now - t0 := by omega
    simp [poll_iteration, hc]
  · intro hfire
    by_cases hc : flush_interval ≤ t' - now
    · omega
    · simp [poll_iteration, hc] at hfire

/-- Claim C2, witness: with interval 2, a flush started at time 0 that ends
at time 1, and checks at times 3 and 5. -/
theorem c2_witness :
    0 + 1 + 2 ≤ 3 ∧ (3 : Nat) ≤ 5 ∧
    ((poll_iteration 2 0 3).2 = true ∧
     ((poll_iteration 2 3 5).2 = true → 3 + 2 ≤ 5)) :=
  ⟨by decide, by decide, c2_periodic_flush 2 0 1 3 5 (by decide) (by decide)⟩

/-- Claim C9: handling a data-package-changed notification only modifies the
`"data_package"` entry of `data_storage`: every other state field (room
metadata, slot identity, checked locations, item log) is unchanged, the
`"data_package"` entry becomes the delivered payload, and the lookup of every
other `data_storage` key (in particular `"slot_data"` and `"retrieved"`) is
unchanged. -/
theorem c9_data_package_frame (s : FetcherState) (dp : Json) :
    ((data_package_changed_handler s dp).room_name = s.room_name ∧
     (data_package_changed_handler s dp).seed = s.seed ∧
     (data_package_changed_handler s dp).server_version = s.server_version ∧
     (data_package_changed_handler s dp).generator_version = s.generator_version ∧
     (data_package_changed_handler s dp).hint_points = s.hint_points ∧
     (data_package_changed_handler s dp).hint_cost_percent = s.hint_cost_percent ∧
     (data_package_changed_handler s dp).hint_cost_points = s.hint_cost_points ∧
     (data_package_changed_handler s dp).slot_name = s.slot_name ∧
     (data_package_changed_handler s dp).game = s.game ∧
     (data_package_changed_handler s dp).slot_id = s.slot_id ∧
     (data_package_changed_handler s dp).team_id = s.team_id ∧
     (data_package_changed_handler s dp).player_number = s.player_number ∧
     (data_package_changed_handler s dp).team_number = s.team_number ∧
     (data_package_changed_handler s dp).checked_locations = s.checked_locations ∧
     (data_package_changed_handler s dp).items = s.items) ∧
    getKey (data_package_changed_handler s dp).data_storage "data_package" = some dp ∧
    (∀ k, k ≠ "data_package" →
      getKey (data_package_changed_handler s dp).data_storage k
        = getKey s.data_storage k) :=
  ⟨⟨rfl, rfl, rfl, rfl, rfl, rfl, rfl, rfl, rfl, rfl, rfl, rfl, rfl, rfl, rfl⟩,
   getKey_setKey_self _ _ _,
   fun _ hk => getKey_setKey_ne _ _ _ _ hk⟩

/-- A state whose `data_storage` already holds `slot_data` and `retrieved`
entries, used to witness the data-package frame property. -/
def c9_prior_state : FetcherState :=
  { initState with
      data_storage :=
        [("slot_data", Json.obj [("game", Json.str "TestGame")]),
         ("retrieved", Json.obj [("key", Json.num 2)])] }

/-- Claim C9, witness: on a state holding `slot_data` and `retrieved`
entries, applying a data-package payload leaves the `slot_data` lookup
unchanged (and `"slot_data"` indeed differs from `"data_package"`). -/
theorem c9_witness :
    ("slot_data" : String) ≠ "data_package" ∧
    getKey (data_package_changed_handler c9_prior_state (Json.num 9)).data_storage
        "slot_data" = getKey c9_prior_state.data_storage "slot_data" :=
  ⟨by decide,
   (c9_data_package_frame c9_prior_state (Json.num 9)).2.2 "slot_data" (by decide)⟩

/-- Claim C10: when the configuration has no `paths.state_file` entry
(whether because `paths` is missing entirely or because `state_file` is
missing from it), `save_state_to_file` performs no write at all — it returns
without producing a file, raising nothing; it reads the state and never
mutates it (`save_state_to_file` is a function of the state, not a
transformer of it), so persistence is silently disabled rather than fatal. -/
theorem c10_no_state_file (cfg : Json) (s : FetcherState)
    (h : ∀ paths, jGet cfg "paths" = some paths → jGet paths "state_file" = none) :
    save_state_to_file cfg s = none := by
  unfold save_state_to_file
  cases hp : jGet cfg "paths" with
  | none => rfl
  | some paths =>
      have hsf := h paths hp
      simp [hsf]

/-- A configuration whose `paths` section omits `state_file`. -/
def c10_cfg : Json := Json.obj [("paths", Json.obj [("fetcher_log", Json.str "log.txt")])]

/-- Claim C10, witness: with a `paths` section that has no `state_file`
entry, no persist attempt writes anything. -/
theorem c10_witness :
    (∀ paths, jGet c10_cfg "paths" = some paths → jGet paths "state_file" = none) ∧
    save_state_to_file c10_cfg initState = none := by
  have h : ∀ paths, jGet c10_cfg "paths" = some paths → jGet paths "state_file" = none := by
    intro paths hp
    simp [c10_cfg, jGet, getKey] at hp
    subst hp
    rfl
  exact ⟨h, c10_no_state_file c10_cfg initState h⟩

/-- Claim C4: in every snapshot that `save_state_to_file` writes, the
`room.location_count` field is the serialized `total_locations` value; that
value equals the number of entries of `data_storage["data_package"].games[game].locations`
when that mapping is present, and equals 0 when the current game is absent
from the data package's `games` — with no error in either case. -/
theorem c4_location_count (cfg : Json) (s : FetcherState) (path : String) (out : Json)
    (hsave : save_state_to_file cfg s = some (path, out)) :
    ((jGet out "room").bind (fun r => jGet r "location_count")
        = some (Json.num (total_locations s.data_storage s.game))) ∧
    (∀ dp games gameObj locs,
        getKey s.data_storage "data_package" = some dp →
        jGet dp "games" = some games →
        jGet games s.game = some gameObj →
        jGet gameObj "locations" = some (Json.obj locs) →
        total_locations s.data_storage s.game = locs.length) ∧
    (∀ dp games,
        getKey s.data_storage "data_package" = some dp →
        jGet dp "games" = some games →
        jGet games s.game = none →
        total_locations s.data_storage s.game = 0) := by
  have hout : out = snapshot_json cfg s := by
    unfold save_state_to_file at hsave
    repeat' split at hsave
    all_goals simp_all
  refine ⟨?_, ?_, ?_⟩
  · rw [hout]
    rfl
  · intro dp games gameObj locs h1 h2 h3 h4
    simp [total_locations, h1, h2, h3, h4]
  · intro dp games h1 h2 h3
    simp [total_locations, h1, h2, h3]

/-- A configuration with a state file, used to witness the snapshot's
location count. -/
def c4_cfg : Json :=
  Json.obj [("paths", Json.obj [("state_file", Json.str "state.json")])]

/-- A state whose data package gives the current game a two-entry locations
catalog. -/
def c4_state : FetcherState :=
  { initState with
      game := "TestGame"
      data_storage :=
        [("data_package",
          Json.obj
            [("games",
              Json.obj
                [("TestGame",
                  Json.obj
                    [("locations",
                      Json.obj [("Loc A", Json.num 1), ("Loc B", Json.num 2)])])])])] }

/-- Claim C4, witness: with a two-entry locations catalog for the current
game, the written snapshot's `room.location_count` is 2. -/
theorem c4_witness :
    save_state_to_file c4_cfg c4_state
        = some ("state.json", snapshot_json c4_cfg c4_state) ∧
    (jGet (snapshot_json c4_cfg c4_state) "room").bind (fun r => jGet r "location_count")
        = some (Json.num 2) := by
  have h := c4_location_count c4_cfg c4_state "state.json"
    (snapshot_json c4_cfg c4_state) rfl
  have hlen : total_locations c4_state.data_storage c4_state.game = 2 :=
    (h.2.1 _ _ _ _ rfl rfl rfl rfl).trans rfl
  refine ⟨rfl, ?_⟩
  rw [h.1, hlen]
  rfl

/-- No single notification handler removes a checked location or an item
event: whenever a handler completes, the old checked set is contained in the
new one and the item log is at least as long. -/
theorem step_monotone (cfgGame : String) (s : FetcherState) (e : Event)
    (s' : FetcherState) (h : step cfgGame s e = some s') :
    s.checked_locations ⊆ s'.checked_locations ∧ s.items.length ≤ s'.items.length := by
  cases e with
  | roomInfo seed sv gv hp hcp =>
      simp only [step, Option.some.injEq] at h
      subst h
      exact ⟨fun a ha => ha, le_refl _⟩
  | slotConnected n p t d =>
      simp only [step] at h
      unfold slot_connected_handler at h
      repeat' split at h
      all_goals injection h
      all_goals (rename_i h; subst h; exact ⟨fun a ha => ha, le_refl _⟩)
  | dataPackageChanged dp =>
      simp only [step, Option.some.injEq] at h
      subst h
      exact ⟨fun a ha => ha, le_refl _⟩
  | locationChecked ids =>
      simp only [step, Option.some.injEq] at h
      subst h
      constructor
      · simp only [location_checked_handler, foldl_insert_eq_union]
        exact Finset.subset_union_left
      · exact le_refl _
  | itemsReceived batch now =>
      simp only [step, Option.some.injEq] at h
      subst h
      constructor
      · exact fun a ha => ha
      · simp only [items_received_handler, foldl_push_eq_append, List.length_append]
        omega
  | retrieved kvs =>
      simp only [step, Option.some.injEq] at h
      subst h
      exact ⟨fun a ha => ha, le_refl _⟩

/-- Claim C8: across any sequence of mutating notifications (room-info,
slot-connected, data-package, locations-checked, items-received, retrieved)
processed in delivery order, the cardinality of `checked_locations` and the
length of the item-event log never decrease. -/
theorem c8_monotone (cfgGame : String) (s : FetcherState) (evs : List Event)
    (s' : FetcherState) (h : run cfgGame s evs = some s') :
    s.checked_locations.card ≤ s'.checked_locations.card ∧
    s.items.length ≤ s'.items.length := by
  induction evs generalizing s with
  | nil =>
      simp only [run, Option.some.injEq] at h
      subst h
      exact ⟨le_refl _, le_refl _⟩
  | cons e es ih =>
      simp only [run] at h
      cases hstep : step cfgGame s e with
      | none => rw [hstep] at h; simp at h
      | some s1 =>
          rw [hstep] at h
          have h1 := step_monotone cfgGame s e s1 hstep
          have h2 := ih s1 h
          exact ⟨le_trans (Finset.card_le_card h1.1) h2.1, le_trans h1.2 h2.2⟩

/-- A short delivery sequence: a locations-checked batch with a duplicate,
then a one-item batch. -/
def c8_events : List Event :=
  [Event.locationChecked [5, 5, 7], Event.itemsReceived [⟨1, 100, 5, 2, 0⟩] 42]

/-- The state those two notifications produce from the initial state. -/
def c8_final : FetcherState :=
  items_received_handler (location_checked_handler initState [5, 5, 7]).1
    [⟨1, 100, 5, 2, 0⟩] 42

/-- Claim C8, witness: processing the two-notification sequence from the
initial state succeeds and both measures are non-decreasing. -/
theorem c8_witness :
    run "TestGame" initState c8_events = some c8_final ∧
    initState.checked_locations.card ≤ c8_final.checked_locations.card ∧
    initState.items.length ≤ c8_final.items.length := by
  have hrun : run "TestGame" initState c8_events = some c8_final := rfl
  exact ⟨hrun, (c8_monotone "TestGame" initState c8_events c8_final hrun).1,
         (c8_monotone "TestGame" initState c8_events c8_final hrun).2⟩

end Fetcher
